import Mathlib

/-
  Verification of the motion detection engine of the CHild_safety repository.

  The embedding follows the TypeScript sources:
    - src/utils/ConfidenceScorer.ts  (strictest, most recent variant)
    - src/utils/MotionAnalyzer.ts
    - src/utils/AlertManager.ts

  JavaScript numbers are modelled as rationals in the scorer and alert
  manager (where the code only compares, adds and multiplies) and as real
  numbers in the motion analyzer (where the code takes square roots).
-/

namespace ChildSafety

/-- The detection type of a classification (src/types/motion): the
`type` field of a `DetectionResult` is one of these or `null`. -/
inductive DetectionType
  | fall
  | violent_movement
  | abnormal_motion
  deriving DecidableEq, Repr

/-- The feature vector produced by the motion analyzer and consumed by the
scorer: six scalar features, parametric in the number type. -/
structure MotionFeatures (α : Type) where
  magnitude : α
  jerk : α
  variance : α
  peakAcceleration : α
  averageAcceleration : α
  rotationMagnitude : α
  deriving DecidableEq, Repr

/-- A detection result as returned by the scorer: `type` is `null`
(`none`) or a detection type, plus a confidence, a timestamp and the
feature vector that produced it. -/
structure DetectionResult where
  type : Option DetectionType
  confidence : ℚ
  timestamp : ℚ
  features : MotionFeatures ℚ
  deriving DecidableEq, Repr

/-- The fall detection state machine states of `ConfidenceScorer`. -/
inductive FallState
  | idle
  | free_fall
  | impact
  | post_impact
  deriving DecidableEq, Repr

/-- The mutable state of a `ConfidenceScorer` instance. -/
structure ConfidenceScorer where
  fallDetectionState : FallState
  fallStateTimestamp : ℚ
  recentFeatures : List (MotionFeatures ℚ)
  deriving DecidableEq, Repr

namespace ConfidenceScorer

/- FALL_THRESHOLDS of the strict variant. -/

/-- FALL_THRESHOLDS.FREE_FALL_MAX = 1.5 m/s². -/
def FREE_FALL_MAX : ℚ := 3 / 2

/-- FALL_THRESHOLDS.IMPACT_MIN = 40.0 m/s². -/
def IMPACT_MIN : ℚ := 40

/-- FALL_THRESHOLDS.INACTIVITY_MAX = 8.0 m/s². -/
def INACTIVITY_MAX : ℚ := 8

/-- FALL_THRESHOLDS.JERK_SPIKE_MIN = 200.0 m/s³. -/
def JERK_SPIKE_MIN : ℚ := 200

/- VIOLENT_MOVEMENT_THRESHOLDS of the strict variant. -/

/-- VIOLENT_MOVEMENT_THRESHOLDS.JERK_HIGH = 150.0 m/s³. -/
def JERK_HIGH : ℚ := 150

/-- VIOLENT_MOVEMENT_THRESHOLDS.ACCELERATION_PEAK = 35.0 m/s². -/
def ACCELERATION_PEAK : ℚ := 35

/-- VIOLENT_MOVEMENT_THRESHOLDS.ROTATION_RAPID = 500.0 deg/s. -/
def ROTATION_RAPID : ℚ := 500

/-- VIOLENT_MOVEMENT_THRESHOLDS.VARIANCE_HIGH = 25.0. -/
def VARIANCE_HIGH : ℚ := 25

/- NORMAL_MOTION_THRESHOLDS of the strict variant. -/

/-- NORMAL_MOTION_THRESHOLDS.WALKING_MAX = 25.0 m/s². -/
def WALKING_MAX : ℚ := 25

/-- NORMAL_MOTION_THRESHOLDS.RUNNING_MAX = 35.0 m/s². -/
def RUNNING_MAX : ℚ := 35

/-- NORMAL_MOTION_THRESHOLDS.PHONE_HANDLING_MAX = 22.0 m/s². -/
def PHONE_HANDLING_MAX : ℚ := 22

/-- FALL_SEQUENCE_TIMEOUT = 2000 ms. -/
def FALL_SEQUENCE_TIMEOUT : ℚ := 2000

/-- HISTORY_SIZE = 10 feature vectors. -/
def HISTORY_SIZE : ℕ := 10

/-- Method `isNormalActivity`: the feature vector matches the walking, running or
phone-handling profile (strict-variant ceilings). -/
def isNormalActivity (features : MotionFeatures ℚ) : Bool :=
  let isWalking :=
    features.peakAcceleration < WALKING_MAX &&
    features.variance < 18 &&
    features.jerk < 120
  let isRunning :=
    features.peakAcceleration < RUNNING_MAX &&
    features.variance < 25 &&
    features.jerk < 140
  let isPhoneHandling :=
    features.peakAcceleration < PHONE_HANDLING_MAX &&
    features.rotationMagnitude < 400
  isWalking || isRunning || isPhoneHandling

/-- The single return site of every sub-detector:
`{ type: confidence > 0 ? kind : null, confidence, timestamp, features }`. -/
def mkResult (kind : DetectionType) (confidence : ℚ) (timestamp : ℚ)
    (features : MotionFeatures ℚ) : DetectionResult :=
  { type := if confidence > 0 then some kind else none
    confidence := confidence
    timestamp := timestamp
    features := features }

/-- Method `detectFall`: one step of the fall state machine (strict variant).
Returns the updated scorer state together with the detection result. -/
def detectFall (s : ConfidenceScorer) (features : MotionFeatures ℚ)
    (timestamp : ℚ) : ConfidenceScorer × DetectionResult :=
  -- Reset state machine if timeout exceeded
  let s :=
    if timestamp - s.fallStateTimestamp > FALL_SEQUENCE_TIMEOUT then
      { s with fallDetectionState := FallState.idle }
    else s
  let (s, confidence) :=
    match s.fallDetectionState with
    | FallState.idle =>
        -- Look for free fall phase (near-zero acceleration)
        if features.magnitude < FREE_FALL_MAX then
          ({ s with fallDetectionState := FallState.free_fall
                    fallStateTimestamp := timestamp }, (0 : ℚ))
        else (s, 0)
    | FallState.free_fall =>
        -- Look for impact - REQUIRE BOTH peak and jerk for high confidence
        if features.peakAcceleration > IMPACT_MIN ∧
           features.jerk > JERK_SPIKE_MIN then
          ({ s with fallDetectionState := FallState.impact
                    fallStateTimestamp := timestamp }, 65 / 100)
        else if features.magnitude > FREE_FALL_MAX then
          -- False alarm - movement detected during free fall
          ({ s with fallDetectionState := FallState.idle }, 0)
        else (s, 0)
    | FallState.impact =>
        -- Look for inactivity after impact
        if features.averageAcceleration < INACTIVITY_MAX then
          ({ s with fallDetectionState := FallState.post_impact
                    fallStateTimestamp := timestamp }, 8 / 10)
        else
          -- Continued movement after impact - likely false positive
          ({ s with fallDetectionState := FallState.idle }, 2 / 10)
    | FallState.post_impact =>
        -- Stay in this state briefly, then reset
        if timestamp - s.fallStateTimestamp > 1000 then
          ({ s with fallDetectionState := FallState.idle }, 75 / 100)
        else (s, 75 / 100)
  (s, mkResult DetectionType.fall confidence timestamp features)

/-- The number of triggered violent-movement indicators:
`indicators.filter(Boolean).length`. -/
def triggeredCount (features : MotionFeatures ℚ) : ℕ :=
  let highJerk : Bool := features.jerk > JERK_HIGH
  let highAcceleration : Bool := features.peakAcceleration > ACCELERATION_PEAK
  let rapidRotation : Bool := features.rotationMagnitude > ROTATION_RAPID
  let highVariance : Bool := features.variance > VARIANCE_HIGH
  (List.filter (fun b => b)
    [highJerk, highAcceleration, rapidRotation, highVariance]).length

/-- Method `detectViolentMovement` (strict variant): confidence from the number
of triggered indicators, then scaled by 0.1 when the feature vector
matches a normal-activity profile. -/
def detectViolentMovement (features : MotionFeatures ℚ)
    (timestamp : ℚ) : DetectionResult :=
  let highJerk : Bool := features.jerk > JERK_HIGH
  let highAcceleration : Bool := features.peakAcceleration > ACCELERATION_PEAK
  let confidence : ℚ :=
    if triggeredCount features ≥ 4 then 9 / 10
    else if triggeredCount features = 3 then 75 / 100
    else if triggeredCount features = 2 then 1 / 2
    else if triggeredCount features = 1 then
      -- Single indicator - must be VERY extreme
      if highJerk ∧ features.jerk > JERK_HIGH * (5 / 2) then 2 / 5
      else if highAcceleration ∧
              features.peakAcceleration > ACCELERATION_PEAK * (5 / 2) then 2 / 5
      else 0
    else 0
  -- Filter out normal activities - VERY aggressive filtering
  let confidence :=
    if isNormalActivity features then confidence * (1 / 10) else confidence
  mkResult DetectionType.violent_movement confidence timestamp features

/-- Method `detectAbnormalMotion` (strict variant): sustained very high
acceleration, raised by a trend over the recent feature history, scaled
by 0.05 when the feature vector matches a normal-activity profile. -/
def detectAbnormalMotion (recentFeatures : List (MotionFeatures ℚ))
    (features : MotionFeatures ℚ) (timestamp : ℚ) : DetectionResult :=
  let confidence : ℚ :=
    if features.averageAcceleration > 22 ∧ features.variance > 20 ∧
       features.peakAcceleration > 32 then
      -- Check trend over recent history
      if recentFeatures.length ≥ 5 ∧
         ((recentFeatures.drop (recentFeatures.length - 5)).filter
           (fun f => f.averageAcceleration > 20)).length ≥ 4 then
        55 / 100
      else 2 / 5
    else 0
  -- Filter out normal activities - VERY aggressive
  let confidence :=
    if isNormalActivity features then confidence * (1 / 20) else confidence
  mkResult DetectionType.abnormal_motion confidence timestamp features

/-- The history push at the top of `detect`: push the feature vector and
shift the oldest one out when the history exceeds HISTORY_SIZE. -/
def pushHistory (recentFeatures : List (MotionFeatures ℚ))
    (features : MotionFeatures ℚ) : List (MotionFeatures ℚ) :=
  let recentFeatures := recentFeatures ++ [features]
  if recentFeatures.length > HISTORY_SIZE then recentFeatures.drop 1
  else recentFeatures

/-- Method `detect`: push the features into the history, then run the fall,
violent-movement and abnormal-motion sub-detectors in priority order and
return the first result with positive confidence, else the null result. -/
def detect (s : ConfidenceScorer) (features : MotionFeatures ℚ)
    (timestamp : ℚ) : ConfidenceScorer × DetectionResult :=
  let s := { s with recentFeatures := pushHistory s.recentFeatures features }
  let (s, fallResult) := detectFall s features timestamp
  if fallResult.confidence > 0 then (s, fallResult)
  else
    let violentResult := detectViolentMovement features timestamp
    if violentResult.confidence > 0 then (s, violentResult)
    else
      let abnormalResult :=
        detectAbnormalMotion s.recentFeatures features timestamp
      if abnormalResult.confidence > 0 then (s, abnormalResult)
      else
        (s, { type := none, confidence := 0, timestamp := timestamp
              features := features })

end ConfidenceScorer

/-- A 3-component vector of a motion sample (acceleration axes). -/
structure Vec3 where
  x : ℝ
  y : ℝ
  z : ℝ

/-- A rotation-rate reading (alpha, beta, gamma in deg/s). -/
structure RotationRate where
  alpha : ℝ
  beta : ℝ
  gamma : ℝ

/-- One raw motion sample (src/types/motion `MotionData`). -/
structure MotionData where
  timestamp : ℝ
  acceleration : Vec3
  accelerationIncludingGravity : Vec3
  rotationRate : RotationRate

/-- The mutable state of a `MotionAnalyzer` instance: the sliding sample
buffer, its capacity, and the persistent gravity filter estimate. -/
structure MotionAnalyzer where
  dataBuffer : List MotionData
  bufferSize : ℕ
  gravityFilter : Vec3

namespace MotionAnalyzer

open scoped Classical in
/-- Model of `Math.max(...l)` as the code applies it: the code only spreads
nonempty lists; the `[]` branch is unreachable there. -/
noncomputable def mathMax : List ℝ → ℝ
  | [] => 0
  | t :: ts => ts.foldl max t

/-- High-pass filter coefficient `alpha = 0.8`. -/
noncomputable def alpha : ℝ := 0.8

/-- A fresh analyzer: `constructor(bufferSize = 50)` with an empty buffer
and a zero gravity estimate. -/
def create (bufferSize : ℕ) : MotionAnalyzer :=
  { dataBuffer := [], bufferSize := bufferSize
    gravityFilter := ⟨0, 0, 0⟩ }

/-- Method `addData`: push the sample, shift the oldest out when the buffer
exceeds its capacity. -/
def addData (s : MotionAnalyzer) (data : MotionData) : MotionAnalyzer :=
  let dataBuffer := s.dataBuffer ++ [data]
  if dataBuffer.length > s.bufferSize then
    { s with dataBuffer := dataBuffer.drop 1 }
  else
    { s with dataBuffer := dataBuffer }

/-- Method `removeGravity`: update the exponential gravity estimate and subtract
it; returns the new filter state and the linear acceleration. -/
noncomputable def removeGravity (gravityFilter : Vec3) (accel : Vec3) :
    Vec3 × Vec3 :=
  let g : Vec3 :=
    ⟨alpha * gravityFilter.x + (1 - alpha) * accel.x,
     alpha * gravityFilter.y + (1 - alpha) * accel.y,
     alpha * gravityFilter.z + (1 - alpha) * accel.z⟩
  (g, ⟨accel.x - g.x, accel.y - g.y, accel.z - g.z⟩)

/-- Method `computeMagnitude`: Euclidean norm of an acceleration vector. -/
noncomputable def computeMagnitude (accel : Vec3) : ℝ :=
  Real.sqrt (accel.x ^ 2 + accel.y ^ 2 + accel.z ^ 2)

open scoped Classical in
/-- The jerk terms collected by the loop in `computeJerk`: one
`‖Δacceleration/Δt‖` per adjacent pair, except that a pair whose
delta-time is exactly zero is skipped (`if (dt === 0) continue`). -/
noncomputable def jerkTerms : List MotionData → List ℝ
  | [] => []
  | [_] => []
  | prev :: curr :: rest =>
      let dt := (curr.timestamp - prev.timestamp) / 1000
      (if dt = 0 then ([] : List ℝ)
       else
         let jerkX := (curr.acceleration.x - prev.acceleration.x) / dt
         let jerkY := (curr.acceleration.y - prev.acceleration.y) / dt
         let jerkZ := (curr.acceleration.z - prev.acceleration.z) / dt
         [Real.sqrt (jerkX ^ 2 + jerkY ^ 2 + jerkZ ^ 2)]) ++
      jerkTerms (curr :: rest)

/-- Method `computeJerk`: maximum jerk term over the last 10 samples, 0 when the
buffer has fewer than 2 samples or no pair contributed a term. -/
noncomputable def computeJerk (s : MotionAnalyzer) : ℝ :=
  if s.dataBuffer.length < 2 then 0
  else
    let recent := s.dataBuffer.drop (s.dataBuffer.length - 10)
    let jerks := jerkTerms recent
    if jerks.length > 0 then mathMax jerks else 0

/-- Method `computeRotationMagnitude`: maximum rotation-rate norm over the last
5 samples, 0 on an empty buffer. -/
noncomputable def computeRotationMagnitude (s : MotionAnalyzer) : ℝ :=
  if s.dataBuffer.length = 0 then 0
  else
    let recent := s.dataBuffer.drop (s.dataBuffer.length - 5)
    mathMax (recent.map (fun data =>
      Real.sqrt (data.rotationRate.alpha ^ 2 + data.rotationRate.beta ^ 2 +
        data.rotationRate.gamma ^ 2)))

/-- Method `computeVariance`: population variance of the raw acceleration norms
over the whole buffer, 0 when the buffer has fewer than 2 samples. -/
noncomputable def computeVariance (s : MotionAnalyzer) : ℝ :=
  if s.dataBuffer.length < 2 then 0
  else
    let magnitudes := s.dataBuffer.map
      (fun data => computeMagnitude data.acceleration)
    let mean := magnitudes.foldl (fun sum val => sum + val) (0 : ℝ) /
      (magnitudes.length : ℝ)
    magnitudes.foldl (fun sum val => sum + (val - mean) ^ 2) (0 : ℝ) /
      (magnitudes.length : ℝ)

open scoped Classical in
/-- The magnitude loop of `extractFeatures`: per sample, prefer the
acceleration-without-gravity reading when any component is nonzero, else
derive one through the (stateful) gravity filter; threads the filter
state left to right and collects the magnitudes in order. -/
noncomputable def windowMagnitudes (gravityFilter : Vec3) :
    List MotionData → Vec3 × List ℝ
  | [] => (gravityFilter, [])
  | data :: rest =>
      let (g, m) :=
        if data.acceleration.x ≠ 0 ∨ data.acceleration.y ≠ 0 ∨
           data.acceleration.z ≠ 0 then
          (gravityFilter, computeMagnitude data.acceleration)
        else
          let (g, linear) :=
            removeGravity gravityFilter data.accelerationIncludingGravity
          (g, computeMagnitude linear)
      let (g, ms) := windowMagnitudes g rest
      (g, m :: ms)

/-- Method `extractFeatures`: `null` when the buffer holds fewer than 10 samples,
otherwise the six-feature vector of the current window (and the updated
gravity filter state). -/
noncomputable def extractFeatures (s : MotionAnalyzer) :
    MotionAnalyzer × Option (MotionFeatures ℝ) :=
  if s.dataBuffer.length < 10 then (s, none)
  else
    let (g, magnitudes) := windowMagnitudes s.gravityFilter s.dataBuffer
    let s := { s with gravityFilter := g }
    let peakAcceleration := mathMax magnitudes
    let averageAcceleration :=
      magnitudes.foldl (fun sum val => sum + val) (0 : ℝ) /
        (magnitudes.length : ℝ)
    (s, some
      { magnitude := magnitudes.getLastD 0
        jerk := computeJerk s
        variance := computeVariance s
        peakAcceleration := peakAcceleration
        averageAcceleration := averageAcceleration
        rotationMagnitude := computeRotationMagnitude s })

/-- Method `getBufferLength`: introspection of the window length. -/
def getBufferLength (s : MotionAnalyzer) : ℕ :=
  s.dataBuffer.length

end MotionAnalyzer

/-- The alert configuration (src/types/motion `AlertConfig`). -/
structure AlertConfig where
  enabled : Bool
  confidenceThreshold : ℚ
  cooldownPeriod : ℚ
  soundEnabled : Bool
  deriving DecidableEq, Repr

/-- The mutable state of an `AlertManager` instance (audio handles are
outside the model; they do not feed back into the decision logic). -/
structure AlertManager where
  lastAlertTime : ℚ
  isAlerting : Bool
  config : AlertConfig
  deriving DecidableEq, Repr

namespace AlertManager

/-- Method `shouldAlert` as a state transformer: the method body only reads the
manager, so every early return leaves the state it was given. The second
component is the returned boolean. -/
def shouldAlert (m : AlertManager) (detection : DetectionResult)
    (now : ℚ) : AlertManager × Bool :=
  if m.config.enabled = false then (m, false)
  else if detection.type = none then (m, false)
  else if detection.confidence < m.config.confidenceThreshold then (m, false)
  -- Check cooldown period
  else if now - m.lastAlertTime < m.config.cooldownPeriod then (m, false)
  else (m, true)

/-- Method `triggerAlert`: no-op while already alerting; otherwise records the
alert start (the sound and log side effects are external). -/
def triggerAlert (m : AlertManager) (_detection : DetectionResult)
    (now : ℚ) : AlertManager :=
  if m.isAlerting then m
  else { m with isAlerting := true, lastAlertTime := now }

end AlertManager

/-! Helper lemmas shared by the claim theorems. -/

open ConfidenceScorer in
/-- A sub-detector result has a non-null type exactly when its confidence
is positive: the single return site couples the two fields. -/
theorem mkResult_type_iff (kind : DetectionType) (c t : ℚ)
    (f : MotionFeatures ℚ) :
    ((mkResult kind c t f).type ≠ none) ↔ 0 < (mkResult kind c t f).confidence := by
  by_cases h : c > 0 <;> simp [mkResult, h]

open ConfidenceScorer in
/-- The confidence field of a sub-detector result. -/
theorem mkResult_confidence (kind : DetectionType) (c t : ℚ)
    (f : MotionFeatures ℚ) : (mkResult kind c t f).confidence = c := rfl

open ConfidenceScorer in
/-- The fall detector result satisfies the type-confidence coupling. -/
theorem detectFall_type_iff (s : ConfidenceScorer) (f : MotionFeatures ℚ)
    (t : ℚ) :
    ((detectFall s f t).2.type ≠ none) ↔ 0 < (detectFall s f t).2.confidence := by
  obtain ⟨fs, ts, rf⟩ := s
  unfold detectFall
  by_cases ht : t - ts > FALL_SEQUENCE_TIMEOUT <;>
    simp only [ht, if_true, if_false, ite_true, ite_false] <;>
    cases fs <;>
    repeat' split
  all_goals apply mkResult_type_iff

open ConfidenceScorer in
/-- The fall detector confidence is one of five constants, all ≥ 0. -/
theorem detectFall_confidence_nonneg (s : ConfidenceScorer)
    (f : MotionFeatures ℚ) (t : ℚ) : 0 ≤ (detectFall s f t).2.confidence := by
  obtain ⟨fs, ts, rf⟩ := s
  unfold detectFall
  by_cases ht : t - ts > FALL_SEQUENCE_TIMEOUT <;>
    simp only [ht, if_true, if_false, ite_true, ite_false] <;>
    cases fs <;>
    repeat' split
  all_goals rw [mkResult_confidence]
  all_goals norm_num

open ConfidenceScorer in
/-- The fall detector never touches the feature history. -/
theorem detectFall_recentFeatures (s : ConfidenceScorer)
    (f : MotionFeatures ℚ) (t : ℚ) :
    (detectFall s f t).1.recentFeatures = s.recentFeatures := by
  obtain ⟨fs, ts, rf⟩ := s
  unfold detectFall
  by_cases ht : t - ts > FALL_SEQUENCE_TIMEOUT <;>
    simp only [ht, if_true, if_false, ite_true, ite_false] <;>
    cases fs <;>
    repeat' split
  all_goals rfl

open ConfidenceScorer in
/-- The violent-movement detector result satisfies the coupling. -/
theorem detectViolent_type_iff (f : MotionFeatures ℚ) (t : ℚ) :
    ((detectViolentMovement f t).type ≠ none) ↔
      0 < (detectViolentMovement f t).confidence := by
  unfold detectViolentMovement
  apply mkResult_type_iff

open ConfidenceScorer in
/-- The violent-movement confidence is never negative. -/
theorem detectViolent_confidence_nonneg (f : MotionFeatures ℚ) (t : ℚ) :
    0 ≤ (detectViolentMovement f t).confidence := by
  unfold detectViolentMovement
  rw [mkResult_confidence]
  repeat' split
  all_goals norm_num

open ConfidenceScorer in
/-- The abnormal-motion detector result satisfies the coupling. -/
theorem detectAbnormal_type_iff (recent : List (MotionFeatures ℚ))
    (f : MotionFeatures ℚ) (t : ℚ) :
    ((detectAbnormalMotion recent f t).type ≠ none) ↔
      0 < (detectAbnormalMotion recent f t).confidence := by
  unfold detectAbnormalMotion
  apply mkResult_type_iff

open ConfidenceScorer in
/-- The abnormal-motion confidence is never negative. -/
theorem detectAbnormal_confidence_nonneg (recent : List (MotionFeatures ℚ))
    (f : MotionFeatures ℚ) (t : ℚ) :
    0 ≤ (detectAbnormalMotion recent f t).confidence := by
  unfold detectAbnormalMotion
  rw [mkResult_confidence]
  repeat' split
  all_goals norm_num

/-! Claim theorems. -/

open ConfidenceScorer in
/-- Claim C5: every classification returned by `detect` has a non-null
type exactly when its confidence is strictly positive, for any input and
any internal state. -/
theorem detect_classification_invariant (s : ConfidenceScorer)
    (f : MotionFeatures ℚ) (t : ℚ) :
    ((detect s f t).2.type ≠ none) ↔ 0 < (detect s f t).2.confidence := by
  simp only [detect]
  rcases hfall : detectFall
    { s with recentFeatures := pushHistory s.recentFeatures f } f t
    with ⟨s2, fallR⟩
  by_cases hc : fallR.confidence > 0
  · have h := detectFall_type_iff
      { s with recentFeatures := pushHistory s.recentFeatures f } f t
    rw [hfall] at h
    simpa [hc] using h
  · by_cases hv : (detectViolentMovement f t).confidence > 0
    · have h := detectViolent_type_iff f t
      simpa [hc, hv] using h
    · by_cases ha :
        (detectAbnormalMotion s2.recentFeatures f t).confidence > 0
      · have h := detectAbnormal_type_iff s2.recentFeatures f t
        simpa [hc, hv, ha] using h
      · simp [hc, hv, ha]

open ConfidenceScorer in
/-- Claim C1, counterexample: with the fall state machine in FreeFall
(entered at time 1000) and a qualifying impact at time 1000, `detect`
returns a non-None classification whose confidence 0.65 lies strictly
between 0 and 0.75 — there is no 0.75 minimum-confidence gate. -/
theorem detect_confidence_gate_cex :
    ((detect ⟨FallState.free_fall, 1000, []⟩
        ⟨0, 250, 0, 50, 0, 0⟩ 1000).2.type = some DetectionType.fall) ∧
    ((detect ⟨FallState.free_fall, 1000, []⟩
        ⟨0, 250, 0, 50, 0, 0⟩ 1000).2.confidence = 65 / 100) ∧
    (0 < (65 : ℚ) / 100 ∧ (65 : ℚ) / 100 < 75 / 100) := by
  refine ⟨?_, ?_, by norm_num⟩ <;>
    norm_num [detect, detectFall, pushHistory, mkResult, HISTORY_SIZE,
      FALL_SEQUENCE_TIMEOUT, FREE_FALL_MAX, IMPACT_MIN, JERK_SPIKE_MIN,
      INACTIVITY_MAX]

open ConfidenceScorer in
/-- Claim C1, amended: `detect` applies no minimum-confidence gate — its
result is the None classification exactly when all three sub-detectors
(fall, violent movement, abnormal motion, each evaluated on the state
with the feature vector already pushed into the history) score
confidence 0; any positive sub-detector confidence, however small, is
returned as-is. -/
theorem detect_none_iff_subdetectors_zero (s : ConfidenceScorer)
    (f : MotionFeatures ℚ) (t : ℚ) :
    ((detect s f t).2.type = none) ↔
      ((detectFall { s with recentFeatures := pushHistory s.recentFeatures f }
          f t).2.confidence = 0 ∧
       (detectViolentMovement f t).confidence = 0 ∧
       (detectAbnormalMotion (pushHistory s.recentFeatures f) f
          t).confidence = 0) := by
  simp only [detect]
  rcases hfall : detectFall
    { s with recentFeatures := pushHistory s.recentFeatures f } f t
    with ⟨s2, fallR⟩
  have hrf : s2.recentFeatures = pushHistory s.recentFeatures f := by
    have h := detectFall_recentFeatures
      { s with recentFeatures := pushHistory s.recentFeatures f } f t
    rw [hfall] at h
    exact h
  have hfc : fallR.confidence =
      (detectFall { s with recentFeatures := pushHistory s.recentFeatures f }
        f t).2.confidence := by rw [hfall]
  have hfnn : 0 ≤ fallR.confidence := by
    rw [hfc]
    exact detectFall_confidence_nonneg _ f t
  by_cases hc : fallR.confidence > 0
  · have h := (detectFall_type_iff
      { s with recentFeatures := pushHistory s.recentFeatures f } f t).mpr
      (by rw [hfall]; exact hc)
    rw [hfall] at h
    simp only [hc, ite_true, if_true]
    constructor
    · intro hnone
      exact absurd hnone h
    · rintro ⟨h1, -, -⟩
      exact absurd h1 (ne_of_gt hc)
  · have hc0 : fallR.confidence = 0 := le_antisymm (not_lt.mp hc) hfnn
    by_cases hv : (detectViolentMovement f t).confidence > 0
    · have h := (detectViolent_type_iff f t).mpr hv
      simp only [hc, hv, ite_true, ite_false, if_true, if_false]
      constructor
      · intro hnone
        exact absurd hnone h
      · rintro ⟨-, h2, -⟩
        rw [h2] at hv
        exact absurd hv (by norm_num)
    · have hv0 : (detectViolentMovement f t).confidence = 0 :=
        le_antisymm (not_lt.mp hv) (detectViolent_confidence_nonneg f t)
      by_cases ha :
        (detectAbnormalMotion (pushHistory s.recentFeatures f) f
          t).confidence > 0
      · have h := (detectAbnormal_type_iff
          (pushHistory s.recentFeatures f) f t).mpr ha
        simp only [hc, hv, hrf, ha, ite_true, ite_false, if_true, if_false]
        constructor
        · intro hnone
          exact absurd hnone h
        · rintro ⟨-, -, h3⟩
          rw [h3] at ha
          exact absurd ha (by norm_num)
      · have ha0 : (detectAbnormalMotion (pushHistory s.recentFeatures f) f
            t).confidence = 0 :=
          le_antisymm (not_lt.mp ha) (detectAbnormal_confidence_nonneg _ f t)
        simp only [hc, hv, hrf, ha, ite_true, ite_false, if_true, if_false]
        simp only [true_iff]
        exact ⟨hc0, hv0, ha0⟩

open ConfidenceScorer in
/-- Claim C2, counterexample: from FreeFall entered at time 1000, a
sample at time 1000 (0 ms spent in FreeFall, so less than any 300 ms
minimum duration) with peakAcceleration 50 > IMPACT_MIN and jerk 250 >
JERK_SPIKE_MIN transitions to Impact immediately, and the emitted
confidence is 0.65, not the claimed 0.75. -/
theorem free_fall_duration_cex :
    ((detectFall ⟨FallState.free_fall, 1000, []⟩
        ⟨0, 250, 0, 50, 0, 0⟩ 1000).1.fallDetectionState =
      FallState.impact) ∧
    ((detectFall ⟨FallState.free_fall, 1000, []⟩
        ⟨0, 250, 0, 50, 0, 0⟩ 1000).2.confidence = 65 / 100) ∧
    ((1000 : ℚ) - 1000 = 0) ∧ ((65 : ℚ) / 100 ≠ 75 / 100) := by
  refine ⟨?_, ?_, by norm_num, by norm_num⟩ <;>
    norm_num [detectFall, mkResult, FALL_SEQUENCE_TIMEOUT, IMPACT_MIN,
      JERK_SPIKE_MIN, FREE_FALL_MAX]

open ConfidenceScorer in
/-- Claim C2, amended: in state FreeFall (and no whole-sequence timeout),
the machine transitions to Impact with confidence 0.65 exactly when
peakAcceleration > IMPACT_MIN and jerk > JERK_SPIKE_MIN — there is no
minimum free-fall-duration requirement; if instead no qualifying impact
occurs and magnitude rises above FREE_FALL_MAX, it returns to Idle with
no detection emitted. -/
theorem free_fall_step_characterization (s : ConfidenceScorer)
    (f : MotionFeatures ℚ) (t : ℚ)
    (h1 : s.fallDetectionState = FallState.free_fall)
    (h2 : ¬(t - s.fallStateTimestamp > FALL_SEQUENCE_TIMEOUT)) :
    (f.peakAcceleration > IMPACT_MIN ∧ f.jerk > JERK_SPIKE_MIN →
      (detectFall s f t).1.fallDetectionState = FallState.impact ∧
      (detectFall s f t).1.fallStateTimestamp = t ∧
      (detectFall s f t).2.confidence = 65 / 100 ∧
      (detectFall s f t).2.type = some DetectionType.fall) ∧
    (¬(f.peakAcceleration > IMPACT_MIN ∧ f.jerk > JERK_SPIKE_MIN) →
      f.magnitude > FREE_FALL_MAX →
      (detectFall s f t).1.fallDetectionState = FallState.idle ∧
      (detectFall s f t).2.confidence = 0 ∧
      (detectFall s f t).2.type = none) := by
  obtain ⟨fs, ts, rf⟩ := s
  dsimp only at h1 h2
  subst h1
  constructor
  · intro himp
    simp only [detectFall, if_neg h2, if_pos himp, mkResult]
    norm_num
  · intro hnimp hmag
    simp only [detectFall, if_neg h2, if_neg hnimp, if_pos hmag, mkResult]
    norm_num

open ConfidenceScorer in
/-- Witness for the amended C2 at a concrete FreeFall state: a qualifying
impact sample transitions to Impact with confidence 0.65. -/
theorem free_fall_step_characterization_witness :
    (detectFall ⟨FallState.free_fall, 1000, []⟩
        ⟨0, 250, 0, 50, 0, 0⟩ 1500).1.fallDetectionState =
      FallState.impact ∧
    (detectFall ⟨FallState.free_fall, 1000, []⟩
        ⟨0, 250, 0, 50, 0, 0⟩ 1500).1.fallStateTimestamp = 1500 ∧
    (detectFall ⟨FallState.free_fall, 1000, []⟩
        ⟨0, 250, 0, 50, 0, 0⟩ 1500).2.confidence = 65 / 100 ∧
    (detectFall ⟨FallState.free_fall, 1000, []⟩
        ⟨0, 250, 0, 50, 0, 0⟩ 1500).2.type = some DetectionType.fall :=
  (free_fall_step_characterization ⟨FallState.free_fall, 1000, []⟩
      ⟨0, 250, 0, 50, 0, 0⟩ 1500 rfl
      (by norm_num [FALL_SEQUENCE_TIMEOUT])).1
    (by norm_num [IMPACT_MIN, JERK_SPIKE_MIN])

open ConfidenceScorer in
/-- Claim C3, counterexample: in state Impact, averageAcceleration below
INACTIVITY_MAX yields confidence 0.8 (not the claimed 0.85), and
averageAcceleration at or above it yields confidence 0.2 with a `fall`
classification (not the claimed confidence 0 with no fall reported). -/
theorem impact_step_cex :
    ((detectFall ⟨FallState.impact, 1000, []⟩
        ⟨0, 0, 0, 0, 1, 0⟩ 1000).2.confidence = 8 / 10) ∧
    ((8 : ℚ) / 10 ≠ 85 / 100) ∧
    ((detectFall ⟨FallState.impact, 1000, []⟩
        ⟨0, 0, 0, 0, 10, 0⟩ 1000).2.confidence = 2 / 10) ∧
    ((detectFall ⟨FallState.impact, 1000, []⟩
        ⟨0, 0, 0, 0, 10, 0⟩ 1000).2.type = some DetectionType.fall) ∧
    ((2 : ℚ) / 10 ≠ 0) := by
  refine ⟨?_, by norm_num, ?_, ?_, by norm_num⟩ <;>
    norm_num [detectFall, mkResult, FALL_SEQUENCE_TIMEOUT, INACTIVITY_MAX]

open ConfidenceScorer in
/-- Claim C3, amended: in state Impact (and no whole-sequence timeout),
averageAcceleration < INACTIVITY_MAX transitions to PostImpact with
confidence 0.8; otherwise the machine resets to Idle but still returns a
`fall` classification with confidence 0.2 — the rejection is a low
confidence, not a zero one. -/
theorem impact_step_characterization (s : ConfidenceScorer)
    (f : MotionFeatures ℚ) (t : ℚ)
    (h1 : s.fallDetectionState = FallState.impact)
    (h2 : ¬(t - s.fallStateTimestamp > FALL_SEQUENCE_TIMEOUT)) :
    (f.averageAcceleration < INACTIVITY_MAX →
      (detectFall s f t).1.fallDetectionState = FallState.post_impact ∧
      (detectFall s f t).1.fallStateTimestamp = t ∧
      (detectFall s f t).2.confidence = 8 / 10 ∧
      (detectFall s f t).2.type = some DetectionType.fall) ∧
    (¬(f.averageAcceleration < INACTIVITY_MAX) →
      (detectFall s f t).1.fallDetectionState = FallState.idle ∧
      (detectFall s f t).2.confidence = 2 / 10 ∧
      (detectFall s f t).2.type = some DetectionType.fall) := by
  obtain ⟨fs, ts, rf⟩ := s
  dsimp only at h1 h2
  subst h1
  constructor
  · intro hin
    simp only [detectFall, if_neg h2, if_pos hin, mkResult]
    norm_num
  · intro hnin
    simp only [detectFall, if_neg h2, if_neg hnin, mkResult]
    norm_num

open ConfidenceScorer in
/-- Witness for the amended C3 at a concrete Impact state: inactivity
below INACTIVITY_MAX confirms the fall with confidence 0.8. -/
theorem impact_step_characterization_witness :
    (detectFall ⟨FallState.impact, 1000, []⟩
        ⟨0, 0, 0, 0, 1, 0⟩ 1500).1.fallDetectionState =
      FallState.post_impact ∧
    (detectFall ⟨FallState.impact, 1000, []⟩
        ⟨0, 0, 0, 0, 1, 0⟩ 1500).1.fallStateTimestamp = 1500 ∧
    (detectFall ⟨FallState.impact, 1000, []⟩
        ⟨0, 0, 0, 0, 1, 0⟩ 1500).2.confidence = 8 / 10 ∧
    (detectFall ⟨FallState.impact, 1000, []⟩
        ⟨0, 0, 0, 0, 1, 0⟩ 1500).2.type = some DetectionType.fall :=
  (impact_step_characterization ⟨FallState.impact, 1000, []⟩
      ⟨0, 0, 0, 0, 1, 0⟩ 1500 rfl
      (by norm_num [FALL_SEQUENCE_TIMEOUT])).1
    (by norm_num [INACTIVITY_MAX])

open ConfidenceScorer in
/-- Claim C4, counterexample: with all four indicators triggered the
violent-movement confidence is 0.9, not the claimed 0.95; with two
indicators triggered on a vector matching the phone-handling profile the
confidence is 0.05 (scaled by 0.1, not forced to 0); and with a single
extreme jerk indicator it is 0.04, not 0. -/
theorem violent_movement_cex :
    ((detectViolentMovement ⟨0, 200, 30, 40, 0, 600⟩ 0).confidence =
      9 / 10) ∧ ((9 : ℚ) / 10 ≠ 95 / 100) ∧
    ((detectViolentMovement ⟨0, 200, 30, 10, 0, 100⟩ 0).confidence =
      (1 / 2) * (1 / 10)) ∧ ((1 : ℚ) / 2 * (1 / 10) ≠ 0) ∧
    ((detectViolentMovement ⟨0, 400, 0, 0, 0, 0⟩ 0).confidence =
      (2 / 5) * (1 / 10)) ∧ ((2 : ℚ) / 5 * (1 / 10) ≠ 0) := by
  refine ⟨?_, by norm_num, ?_, by norm_num, ?_, by norm_num⟩ <;>
    norm_num [detectViolentMovement, triggeredCount, isNormalActivity,
      mkResult, JERK_HIGH, ACCELERATION_PEAK, ROTATION_RAPID,
      VARIANCE_HIGH, WALKING_MAX, RUNNING_MAX, PHONE_HANDLING_MAX]

open ConfidenceScorer in
/-- Claim C4, amended: the violent-movement confidence is determined by
the triggered-indicator count as 4 → 0.9, 3 → 0.75, 2 → 0.5, 1 → 0.4
when that single indicator is extreme (jerk > 2.5·JERK_HIGH or
peakAcceleration > 2.5·ACCELERATION_PEAK) and 0 otherwise; matching a
normal-activity profile multiplies the confidence by 0.1 rather than
forcing it to 0. -/
theorem violent_confidence_characterization (f : MotionFeatures ℚ)
    (t : ℚ) :
    (detectViolentMovement f t).confidence =
      (let base : ℚ :=
        if triggeredCount f ≥ 4 then 9 / 10
        else if triggeredCount f = 3 then 75 / 100
        else if triggeredCount f = 2 then 1 / 2
        else if triggeredCount f = 1 ∧
          (f.jerk > JERK_HIGH * (5 / 2) ∨
           f.peakAcceleration > ACCELERATION_PEAK * (5 / 2)) then 2 / 5
        else 0
       if isNormalActivity f then base * (1 / 10) else base) := by
  unfold detectViolentMovement
  rw [mkResult_confidence]
  by_cases h4 : triggeredCount f ≥ 4
  · simp [h4]
  · by_cases h3 : triggeredCount f = 3
    · simp [h4, h3]
    · by_cases h2 : triggeredCount f = 2
      · simp [h4, h3, h2]
      · by_cases h1c : triggeredCount f = 1
        · by_cases hj : f.jerk > JERK_HIGH * (5 / 2)
          · have hhj : f.jerk > JERK_HIGH :=
              lt_trans (by norm_num [JERK_HIGH]) hj
            simp [h4, h3, h2, h1c, hj, hhj]
          · by_cases hacc :
              f.peakAcceleration > ACCELERATION_PEAK * (5 / 2)
            · have hha : f.peakAcceleration > ACCELERATION_PEAK :=
                lt_trans (by norm_num [ACCELERATION_PEAK]) hacc
              simp [h4, h3, h2, h1c, hj, hacc, hha]
            · simp [h4, h3, h2, h1c, hj, hacc]
        · simp [h4, h3, h2, h1c]

open MotionAnalyzer in
/-- Claim C6: `extractFeatures` returns the insufficient-data signal
(`none`) exactly when the sample window holds fewer than 10 samples; any
window of 10 or more samples yields a feature vector. -/
theorem extractFeatures_none_iff_insufficient (s : MotionAnalyzer) :
    (extractFeatures s).2 = none ↔ s.dataBuffer.length < 10 := by
  unfold extractFeatures
  by_cases h : s.dataBuffer.length < 10
  · simp [h]
  · rcases hw : windowMagnitudes s.gravityFilter s.dataBuffer with ⟨g, ms⟩
    simp [h, hw]

open MotionAnalyzer in
/-- Feeding samples never changes the buffer capacity. -/
theorem foldl_addData_bufferSize (xs : List MotionData) :
    ∀ s : MotionAnalyzer, (xs.foldl addData s).bufferSize = s.bufferSize := by
  induction xs with
  | nil => intro s; rfl
  | cons x xs ih =>
      intro s
      rw [List.foldl_cons, ih]
      simp only [addData]
      split <;> rfl

open MotionAnalyzer in
/-- The sliding window after feeding any sample list is the suffix of
everything fed so far that fits the capacity. -/
theorem foldl_addData_buffer (xs : List MotionData) :
    ∀ s : MotionAnalyzer, s.dataBuffer.length ≤ s.bufferSize →
      (xs.foldl addData s).dataBuffer =
        (s.dataBuffer ++ xs).drop
          (s.dataBuffer.length + xs.length - s.bufferSize) := by
  induction xs with
  | nil =>
      intro s h
      simp [Nat.sub_eq_zero_of_le h]
  | cons x xs ih =>
      intro s h
      rw [List.foldl_cons]
      by_cases hl : (s.dataBuffer ++ [x]).length > s.bufferSize
      · have hlen : s.dataBuffer.length = s.bufferSize := by
          simp at hl
          omega
        have haddeq : addData s x =
            { s with dataBuffer := (s.dataBuffer ++ [x]).drop 1 } := by
          simp only [addData]
          rw [if_pos hl]
        rw [haddeq]
        have hle : ((s.dataBuffer ++ [x]).drop 1).length ≤ s.bufferSize := by
          simp
          omega
        rw [ih _ hle]
        dsimp only
        have h1 : (1 : ℕ) ≤ (s.dataBuffer ++ [x]).length := by
          simp
        rw [← List.drop_append_of_le_length h1, List.drop_drop]
        have hlist : s.dataBuffer ++ [x] ++ xs = s.dataBuffer ++ x :: xs := by
          simp
        rw [hlist]
        congr 1
        simp
        omega
      · have haddeq : addData s x =
            { s with dataBuffer := s.dataBuffer ++ [x] } := by
          simp only [addData]
          rw [if_neg hl]
        rw [haddeq]
        have hle : (s.dataBuffer ++ [x]).length ≤ s.bufferSize := by
          simp at hl ⊢
          omega
        rw [ih _ hle]
        dsimp only
        have hlist : s.dataBuffer ++ [x] ++ xs = s.dataBuffer ++ x :: xs := by
          simp
        rw [hlist]
        congr 1
        simp
        omega

open MotionAnalyzer in
/-- Claim C7: feeding any sequence of samples into a fresh capacity-50
window leaves a buffer that never exceeds 50 samples and equals exactly
the newest `min(length, 50)` samples in order (FIFO eviction of the
oldest): after 60 samples the oldest 10 are gone and the newest 50
remain. -/
theorem sample_window_fifo (xs : List MotionData) :
    getBufferLength (xs.foldl addData (create 50)) ≤ 50 ∧
    (xs.foldl addData (create 50)).dataBuffer =
      xs.drop (xs.length - 50) := by
  have h := foldl_addData_buffer xs (create 50) (by simp [create])
  simp only [create, List.nil_append, List.length_nil, Nat.zero_add] at h ⊢
  refine ⟨?_, h⟩
  unfold getBufferLength
  rw [h]
  simp
  omega

open MotionAnalyzer in
/-- Every jerk term the loop collects is a Euclidean norm, hence ≥ 0. -/
theorem jerkTerms_mem_nonneg (l : List MotionData) :
    ∀ x ∈ jerkTerms l, 0 ≤ x := by
  induction l with
  | nil =>
      intro x hx
      simp [jerkTerms] at hx
  | cons a tl ih =>
      cases tl with
      | nil =>
          intro x hx
          simp [jerkTerms] at hx
      | cons b rest =>
          intro x hx
          simp only [jerkTerms] at hx
          rcases List.mem_append.mp hx with hmem | hmem
          · split at hmem
            · simp at hmem
            · simp at hmem
              rw [hmem]
              exact Real.sqrt_nonneg _
          · exact ih x hmem

/-- The seed of a left max-fold bounds the fold from below. -/
theorem foldl_max_seed_le (ts : List ℝ) :
    ∀ t : ℝ, t ≤ ts.foldl max t := by
  induction ts with
  | nil => intro t; simp
  | cons a ts ih =>
      intro t
      exact le_trans (le_max_left t a) (ih (max t a))

open MotionAnalyzer in
/-- The maximum of a list of non-negative reals is non-negative. -/
theorem mathMax_nonneg (l : List ℝ) (h : ∀ x ∈ l, 0 ≤ x) :
    0 ≤ mathMax l := by
  cases l with
  | nil => simp [mathMax]
  | cons t ts => exact le_trans (h t (by simp)) (foldl_max_seed_le ts t)

open MotionAnalyzer in
/-- Claim C8, counterexample: a pair of samples with negative delta-time
(second timestamp 900 before first timestamp 1000) is not skipped — only
exactly-zero delta-times are — and contributes a jerk term, so the jerk
over that buffer is 10, not the 0 the skip rule would give. -/
theorem computeJerk_negative_dt_cex :
    computeJerk ⟨[⟨1000, ⟨1, 0, 0⟩, ⟨0, 0, 0⟩, ⟨0, 0, 0⟩⟩,
                  ⟨900, ⟨0, 0, 0⟩, ⟨0, 0, 0⟩, ⟨0, 0, 0⟩⟩], 50,
                 ⟨0, 0, 0⟩⟩ = 10 ∧
    ((900 : ℝ) - 1000 < 0) ∧ ((10 : ℝ) ≠ 0) := by
  refine ⟨?_, by norm_num, by norm_num⟩
  unfold computeJerk
  rw [if_neg (by norm_num)]
  norm_num [jerkTerms, mathMax]
  rw [show (100 : ℝ) = 10 ^ 2 by norm_num]
  exact Real.sqrt_sq (by norm_num)

open MotionAnalyzer in
/-- Claim C8, amended: the jerk is always a well-defined non-negative
real, and it is 0 whenever no adjacent pair among the last 10 samples
contributes a term; but only pairs with exactly zero delta-time are
skipped — a negative delta-time pair still contributes a (non-negative)
term. -/
theorem computeJerk_nonneg_and_skip (s : MotionAnalyzer) :
    0 ≤ computeJerk s ∧
    (jerkTerms (s.dataBuffer.drop (s.dataBuffer.length - 10)) = [] →
      computeJerk s = 0) := by
  constructor
  · simp only [computeJerk]
    split
    · exact le_refl 0
    · split
      · exact mathMax_nonneg _ (jerkTerms_mem_nonneg _)
      · exact le_refl 0
  · intro h
    simp only [computeJerk]
    split
    · rfl
    · simp [h]

open MotionAnalyzer in
/-- Witness for the amended C8: on a two-sample buffer whose timestamps
coincide (zero delta-time) every pair is skipped and the jerk is 0. -/
theorem computeJerk_nonneg_and_skip_witness :
    0 ≤ computeJerk ⟨[⟨1000, ⟨1, 0, 0⟩, ⟨0, 0, 0⟩, ⟨0, 0, 0⟩⟩,
                      ⟨1000, ⟨2, 0, 0⟩, ⟨0, 0, 0⟩, ⟨0, 0, 0⟩⟩], 50,
                     ⟨0, 0, 0⟩⟩ ∧
    computeJerk ⟨[⟨1000, ⟨1, 0, 0⟩, ⟨0, 0, 0⟩, ⟨0, 0, 0⟩⟩,
                  ⟨1000, ⟨2, 0, 0⟩, ⟨0, 0, 0⟩, ⟨0, 0, 0⟩⟩], 50,
                 ⟨0, 0, 0⟩⟩ = 0 :=
  ⟨(computeJerk_nonneg_and_skip _).1,
   (computeJerk_nonneg_and_skip _).2 (by norm_num [jerkTerms])⟩

open AlertManager in
/-- Claim C9: `AlertTrigger.shouldAlert(c)` returns false exactly when the
config is disabled, the classification kind is None, the confidence is
below the configured threshold, or the elapsed time since the last alert
is less than the cooldown period; in all other cases it returns true. -/
theorem shouldAlert_false_iff (m : AlertManager) (d : DetectionResult)
    (now : ℚ) :
    (shouldAlert m d now).2 = false ↔
      (m.config.enabled = false ∨ d.type = none ∨
       d.confidence < m.config.confidenceThreshold ∨
       now - m.lastAlertTime < m.config.cooldownPeriod) := by
  unfold shouldAlert
  repeat' split
  all_goals simp_all

open AlertManager in
/-- Claim C10: `shouldAlert` is read-only — it never changes
`lastAlertTime`, `isAlerting` or the config, so a check never starts or
refreshes the cooldown window; only `triggerAlert` updates
`lastAlertTime` and `isAlerting` (and only when not already alerting),
leaving the config unchanged. -/
theorem shouldAlert_frame (m : AlertManager) (d : DetectionResult)
    (now : ℚ) :
    (shouldAlert m d now).1 = m ∧
    (triggerAlert m d now).config = m.config ∧
    (m.isAlerting = false →
      triggerAlert m d now =
        { m with isAlerting := true, lastAlertTime := now }) ∧
    (m.isAlerting = true → triggerAlert m d now = m) := by
  refine ⟨?_, ?_, ?_, ?_⟩
  · unfold shouldAlert
    repeat' split
    all_goals rfl
  · unfold triggerAlert
    split
    all_goals rfl
  · intro h
    unfold triggerAlert
    rw [h]
    rfl
  · intro h
    unfold triggerAlert
    rw [h]
    rfl

/-- Witness for C10 at a concrete manager state: the check leaves the
state unchanged and a trigger from a non-alerting state records the
alert. -/
theorem shouldAlert_frame_witness :
    (AlertManager.shouldAlert
        ⟨0, false, ⟨true, 3/4, 5000, true⟩⟩
        ⟨some DetectionType.fall, 9/10, 100,
          ⟨0, 0, 0, 0, 0, 0⟩⟩ 100).1 =
      ⟨0, false, ⟨true, 3/4, 5000, true⟩⟩ ∧
    AlertManager.triggerAlert
        ⟨0, false, ⟨true, 3/4, 5000, true⟩⟩
        ⟨some DetectionType.fall, 9/10, 100,
          ⟨0, 0, 0, 0, 0, 0⟩⟩ 100 =
      ⟨100, true, ⟨true, 3/4, 5000, true⟩⟩ := by
  refine ⟨(shouldAlert_frame _ _ _).1, ?_⟩
  have h := (shouldAlert_frame
    (⟨0, false, ⟨true, 3/4, 5000, true⟩⟩ : AlertManager)
    (⟨some DetectionType.fall, 9/10, 100, ⟨0, 0, 0, 0, 0, 0⟩⟩ :
      DetectionResult) 100).2.2.1 rfl
  exact h

end ChildSafety
